import Mathlib

/- Verification of the USD thumbnail generator (generate_thumbnail.py).

   The camera auto-framing math (field-of-view distance, camera translation,
   clipping planes) is embedded over the real numbers: the Python code works
   with double-precision values and `math.atan` / `math.tan`, which we model
   with `Real.arctan` / `Real.tan`.  The pipeline glue (up-axis normalization,
   external render process, temporary-file cleanup, archive packing) is
   embedded as computable functions over explicit state: a list of files on
   disk, process exit codes, and `Except` for raised Python exceptions. -/

/-- `Gf.Vec3d`: a 3-vector of doubles, modelled over the reals. -/
structure Vec3 where
  x : ℝ
  y : ℝ
  z : ℝ

noncomputable instance : Add Vec3 :=
  ⟨fun a b => ⟨a.x + b.x, a.y + b.y, a.z + b.z⟩⟩

noncomputable instance : HDiv Vec3 ℝ Vec3 :=
  ⟨fun v r => ⟨v.x / r, v.y / r, v.z / r⟩⟩

/-- The camera attributes read by `get_distance_to_camera` from the camera
prim (`GetFocalLengthAttr`, `GetHorizontalApertureAttr`,
`GetVerticalApertureAttr`). -/
structure CameraOptics where
  focalLength : ℝ
  horizontalAperture : ℝ
  verticalAperture : ℝ

/-- The values produced by `create_camera_translation_and_clipping`: the
returned translation `cameraZ` together with the clipping planes written to
the camera prim. -/
structure CameraPlacement where
  translation : Vec3
  nearClip : ℝ
  farClip : ℝ

/-- `calculate_field_of_view(focal_length, sensor_size)`:
`2 * math.atan(sensor_size / (2 * focal_length))`. -/
noncomputable def calculate_field_of_view (focal_length sensor_size : ℝ) : ℝ :=
  2 * Real.arctan (sensor_size / (2 * focal_length))

/-- `calculate_camera_distance(subject_size, field_of_view)`:
`(subject_size / 2) / math.tan(field_of_view / 2)`. -/
noncomputable def calculate_camera_distance (subject_size field_of_view : ℝ) : ℝ :=
  (subject_size / 2) / Real.tan (field_of_view / 2)

/-- `calculate_field_of_view_distance(sensor_size, object_size, focal_length)`. -/
noncomputable def calculate_field_of_view_distance (sensor_size object_size focal_length : ℝ) : ℝ :=
  calculate_camera_distance object_size (calculate_field_of_view focal_length sensor_size)

/-- `get_distance_to_camera(min_bound, max_bound, camera_prim)`: horizontal and
vertical FOV distances of the box extents scaled by 10 (cm to mm), combined
with `max`. -/
noncomputable def get_distance_to_camera (min_bound max_bound : Vec3) (cam : CameraOptics) : ℝ :=
  max (calculate_field_of_view_distance cam.horizontalAperture
        ((max_bound.x - min_bound.x) * 10) cam.focalLength)
      (calculate_field_of_view_distance cam.verticalAperture
        ((max_bound.y - min_bound.y) * 10) cam.focalLength)

/-- `get_camera_z_translation(distance)`: `Gf.Vec3d(0, 0, distance)`. -/
noncomputable def get_camera_z_translation (distance : ℝ) : Vec3 :=
  ⟨0, 0, distance⟩

/-- `create_camera_translation_and_clipping(subject_stage, camera_prim)` for a
subject whose world bounding box has corners `min_bound`/`max_bound`. -/
noncomputable def create_camera_translation_and_clipping
    (min_bound max_bound : Vec3) (cam : CameraOptics) : CameraPlacement :=
  let subject_center := (min_bound + max_bound) / (2 : ℝ)
  let distance := get_distance_to_camera min_bound max_bound cam
  let center_of_thumbnail_face : Vec3 := ⟨subject_center.x, subject_center.y, max_bound.z⟩
  let distanceInCm := distance / 10
  let cameraZ := center_of_thumbnail_face + get_camera_z_translation distanceInCm
  let nearClip := (distanceInCm + min_bound.z) * 0.5
  let farClip := (distanceInCm + max_bound.z) * 2
  ⟨cameraZ, max nearClip 0.0000001, farClip⟩

/-- Spec-side `FOVDistance(sensorSize, objectSize, focalLength)`, written from
the wording of spec section 4.1: `fov = 2 * atan(sensorSize / (2 *
focalLength))`; `distance = (objectSize / 2) / tan(fov / 2)`. -/
noncomputable def FOVDistance (sensorSize objectSize focalLength : ℝ) : ℝ :=
  (objectSize / 2) / Real.tan ((2 * Real.arctan (sensorSize / (2 * focalLength))) / 2)

/-- Spec-side closed form of the required distance:
`objectSize * focalLength / sensorSize`. -/
noncomputable def closed_form_distance (objectSize focalLength sensorSize : ℝ) : ℝ :=
  objectSize * focalLength / sensorSize

/-- A root child prim of the subject stage, as seen by
`generate_y_up_stage`: its name and its type name. -/
structure SourcePrim where
  name : String
  typeName : String

/-- The result of `UsdShade.MaterialBindingAPI.ComputeBoundMaterial` for one
mesh prim of the subject stage (an external collaborator of the script): the
mesh prim path and the bound material prim path. -/
structure MeshBinding where
  meshPath : String
  materialPath : String

/-- The pieces of the opened subject stage that the script reads: the declared
up axis token (`UsdGeom.GetStageUpAxis`), the children of the pseudo-root, and
the resolved material bindings of the mesh prims beneath them. -/
structure SubjectStage where
  upAxis : String
  children : List SourcePrim
  meshBindings : List MeshBinding

/-- A prim defined in the `y_up.usda` stage wrapping a prim of the subject
stage by reference (`GetReferences().AddReference(usd_file, prim.GetPath())`). -/
structure ReferencePrim where
  path : String
  typeName : String
  active : Bool
  referenceFile : String
  referencePath : String

/-- The `y_up.usda` stage produced by `generate_y_up_stage`: the `/Root` xform,
its wrapped children, the re-applied material bindings, and the rotate-X xform
op set on `/Root`. -/
structure YUpStage where
  rootPath : String
  children : List ReferencePrim
  rebindings : List (String × String)
  rotateXDegrees : Int

/-- `generate_y_up_stage(stage, usd_file)`: defines `/Root`, wraps every child
of the subject pseudo-root under `/Root` by reference to `usd_file`, re-binds
each mesh's resolved material at the `/Root`-prefixed paths, and adds a
rotate-X op of 270 degrees to `/Root`. -/
def generate_y_up_stage (stage : SubjectStage) (usd_file : String) : YUpStage :=
  { rootPath := "/Root"
    children := stage.children.map fun p =>
      { path := "/Root/" ++ p.name
        typeName := p.typeName
        active := true
        referenceFile := usd_file
        referencePath := "/" ++ p.name }
    rebindings := stage.meshBindings.map fun b =>
      ("/Root" ++ b.meshPath, "/Root" ++ b.materialPath)
    rotateXDegrees := 270 }

/-- Lines 45-47 of `generate_thumbnail`: when the declared up axis is `Z` the
subject is replaced by the `y_up.usda` wrapper stage and the subject file
becomes `y_up.usda`; otherwise both are left untouched. -/
def normalize_up_axis (stage : SubjectStage) (usd_file : String) :
    Option YUpStage × String :=
  if stage.upAxis = "Z" then
    (some (generate_y_up_stage stage usd_file), "y_up.usda")
  else
    (none, usd_file)

/-- Operating system discrimination used by `get_renderer` and
`run_os_specific_usdrecord` (`os.name == 'nt'`, `sys.platform == 'darwin'`,
anything else). -/
inductive OSKind where
  | windows
  | darwin
  | linux
deriving DecidableEq

/-- `subprocess.run` of an external process that exits with `exitCode`: with
`check=True` a non-zero exit raises `CalledProcessError`; without `check` the
exit code is ignored and no exception is raised. -/
def subprocess_run (check : Bool) (exitCode : Nat) : Except String Unit :=
  if check ∧ exitCode ≠ 0 then Except.error "CalledProcessError" else Except.ok ()

/-- `run_os_specific_usdrecord(cmd)`: all three OS branches call
`subprocess.run` with `check=True`. -/
def run_os_specific_usdrecord (os : OSKind) (exitCode : Nat) : Except String Unit :=
  match os with
  | OSKind.windows => subprocess_run true exitCode
  | OSKind.darwin => subprocess_run true exitCode
  | OSKind.linux => subprocess_run true exitCode

/-- `os.remove(f)` on a working directory holding the files `fs`: removes the
file, or raises `FileNotFoundError` when it is absent. -/
def os_remove (fs : List String) (f : String) : Except String (List String) :=
  if f ∈ fs then Except.ok (fs.filter fun g => g ≠ f) else Except.error "FileNotFoundError"

/-- `take_snapshot(image_name)` acting on the working-directory file list `fs`,
where the external `usdrecord` process exits with `renderExit`: runs the
render (raising on non-zero exit, in which case the remove calls below are
never reached), then removes `camera.usda`, then removes `y_up.usda` when
present.  Returns the final file list alongside the outcome. -/
def take_snapshot (os : OSKind) (renderExit : Nat) (fs : List String)
    (image_name : String) : List String × Except String String :=
  match run_os_specific_usdrecord os renderExit with
  | Except.error e => (fs, Except.error e)
  | Except.ok _ =>
    match os_remove fs "camera.usda" with
    | Except.error e => (fs, Except.error e)
    | Except.ok fs1 =>
      if "y_up.usda" ∈ fs1 then
        match os_remove fs1 "y_up.usda" with
        | Except.error e => (fs1, Except.error e)
        | Except.ok fs2 => (fs2, Except.ok image_name)
      else
        (fs1, Except.ok image_name)

/-- Splits a list of characters at its last dot: returns the part before the
last dot and the part from the last dot on. -/
def split_last_dot : List Char → Option (List Char × List Char)
  | [] => none
  | c :: cs =>
    match split_last_dot cs with
    | some (st, sf) => some (c :: st, sf)
    | none => if c = '.' then some ([], '.' :: cs) else none

/-- `pathlib`'s stem/suffix split of a file name: the suffix is the part from
the last dot on, except when the dot is the first character or the last. -/
def py_suffix_split (name : String) : String × String :=
  match split_last_dot name.toList with
  | some (st, sf) =>
    if st = [] ∨ sf.length ≤ 1 then (name, "") else (String.mk st, String.mk sf)
  | none => (name, "")

/-- `pathlib.PurePath.with_suffix(suffix)`: raises `ValueError` when the
suffix contains a path separator, is non-empty without a leading dot, or is a
bare dot; otherwise replaces the name's suffix (or removes it when the new
suffix is empty). -/
def with_suffix (path suffix : String) : Except String String :=
  if suffix.toList.contains '/' then
    Except.error "ValueError: Invalid suffix"
  else if (suffix ≠ "" ∧ suffix.toList.head? ≠ some '.') ∨ suffix = "." then
    Except.error "ValueError: Invalid suffix"
  else
    Except.ok ((py_suffix_split path).1 ++ suffix)

/-- `zip_results(usd_file, image_name, is_usdz)` where the external `usdzip`
process exits with `packerExit`: builds the member list (with the wrapper
layer path when the input was usdz), computes the archive name with
`Path.with_suffix`, and invokes `usdzip` through `subprocess.run` with no
`check` argument.  Returns the archive name and member list on completion. -/
def zip_results (usd_file image_name : String) (is_usdz : Bool)
    (packerExit : Nat) : Except String (String × List String) := do
  let file_list := [usd_file, image_name]
  let file_list ←
    if is_usdz then do
      let wrapper ← with_suffix usd_file "_Thumbnail.usda"
      pure (file_list ++ [wrapper])
    else
      pure file_list
  let usdz_file ← with_suffix usd_file "_Thumbnail.usdz"
  match subprocess_run false packerExit with
  | Except.error e => Except.error e
  | Except.ok _ => pure (usdz_file, file_list)

/-- Outcome test for a modelled Python call: `true` when no exception was
raised. -/
def okB {α : Type} : Except String α → Bool
  | Except.ok _ => true
  | Except.error _ => false

/-- The two-step FOV distance computation collapses to the closed form
`objectSize * focalLength / sensorSize`; over the reals with division-by-zero
conventions this even holds with no side conditions. -/
lemma fov_distance_closed_form (s o f : ℝ) :
    calculate_field_of_view_distance s o f = o * f / s := by
  unfold calculate_field_of_view_distance calculate_camera_distance calculate_field_of_view
  have h2 : 2 * Real.arctan (s / (2 * f)) / 2 = Real.arctan (s / (2 * f)) := by ring
  rw [h2, Real.tan_arctan]
  rcases eq_or_ne s 0 with hs | hs
  · simp [hs]
  rcases eq_or_ne f 0 with hf | hf
  · simp [hf]
  field_simp
  ring

@[simp] lemma Vec3.add_def (a b : Vec3) :
    a + b = ⟨a.x + b.x, a.y + b.y, a.z + b.z⟩ := rfl

@[simp] lemma Vec3.div_def (v : Vec3) (r : ℝ) :
    v / r = ⟨v.x / r, v.y / r, v.z / r⟩ := rfl

/-- C1: the placement computation takes the horizontal extent `max.x - min.x`
and the vertical extent `max.y - min.y`, scales each by 10 (cm to mm), feeds
each with its matching aperture and the focal length into the FOV distance
function, takes the maximum of the two distances, and divides by 10 back to
scene units before positioning the camera (the camera's z coordinate is
`max.z` plus that converted distance). -/
theorem thumbnail_distance_derivation (bmin bmax : Vec3) (cam : CameraOptics) :
    (create_camera_translation_and_clipping bmin bmax cam).translation.z
      = bmax.z +
        (max (FOVDistance cam.horizontalAperture ((bmax.x - bmin.x) * 10) cam.focalLength)
             (FOVDistance cam.verticalAperture ((bmax.y - bmin.y) * 10) cam.focalLength)) / 10 :=
  rfl

/-- C2: the camera anchor is the center of the front-facing bounding face
`(center.x, center.y, max.z)` and the translation is that anchor plus
`(0, 0, distance)` in scene units; whenever the box has nonzero depth this
differs from anchoring at the geometric center of the box. -/
theorem camera_translation_front_face_anchor (bmin bmax : Vec3) (cam : CameraOptics) :
    (create_camera_translation_and_clipping bmin bmax cam).translation
      = Vec3.mk ((bmin.x + bmax.x) / 2) ((bmin.y + bmax.y) / 2)
          (bmax.z + get_distance_to_camera bmin bmax cam / 10)
    ∧ (bmin.z ≠ bmax.z →
        (create_camera_translation_and_clipping bmin bmax cam).translation
          ≠ Vec3.mk ((bmin.x + bmax.x) / 2) ((bmin.y + bmax.y) / 2)
              ((bmin.z + bmax.z) / 2 + get_distance_to_camera bmin bmax cam / 10)) := by
  constructor
  · simp [create_camera_translation_and_clipping, get_camera_z_translation, Vec3.mk.injEq]
  · intro hne h
    have hz := congrArg Vec3.z h
    simp [create_camera_translation_and_clipping, get_camera_z_translation] at hz
    exact hne (by linarith)

/-- C2 witness: for the unit-ish box from the origin to `(2,2,2)` and the
default 50mm/24mm optics, the translation is not the geometric-center
anchoring. -/
theorem camera_translation_front_face_anchor_witness :
    (create_camera_translation_and_clipping ⟨0, 0, 0⟩ ⟨2, 2, 2⟩ ⟨50, 24, 24⟩).translation
      ≠ Vec3.mk ((0 + 2) / 2) ((0 + 2) / 2)
          ((0 + 2) / 2 + get_distance_to_camera ⟨0, 0, 0⟩ ⟨2, 2, 2⟩ ⟨50, 24, 24⟩ / 10) :=
  (camera_translation_front_face_anchor ⟨0, 0, 0⟩ ⟨2, 2, 2⟩ ⟨50, 24, 24⟩).2 (by norm_num)

/-- C3: the near clip is `max(0.0000001, (distance + min.z) * 0.5)`, the far
clip is `(distance + max.z) * 2`, and the near clip is at least `0.0000001`
for every input. -/
theorem clipping_plane_formulas (bmin bmax : Vec3) (cam : CameraOptics) :
    (create_camera_translation_and_clipping bmin bmax cam).nearClip
        = max 0.0000001 ((get_distance_to_camera bmin bmax cam / 10 + bmin.z) * 0.5)
    ∧ (create_camera_translation_and_clipping bmin bmax cam).farClip
        = (get_distance_to_camera bmin bmax cam / 10 + bmax.z) * 2
    ∧ 0.0000001 ≤ (create_camera_translation_and_clipping bmin bmax cam).nearClip :=
  ⟨max_comm _ _, rfl, le_max_right _ _⟩

/-- C4: for positive focal length and sensor size the FOV distance divides by
a nonzero tangent (so a zero-extent axis is a valid input), is positive for
positive object size, and is exactly zero for object size zero. -/
theorem fov_distance_guarantees (s o f : ℝ) (hs : 0 < s) (hf : 0 < f) :
    Real.tan (calculate_field_of_view f s / 2) ≠ 0
    ∧ (0 < o → 0 < calculate_field_of_view_distance s o f)
    ∧ calculate_field_of_view_distance s 0 f = 0 := by
  refine ⟨?_, ?_, ?_⟩
  · unfold calculate_field_of_view
    have h2 : 2 * Real.arctan (s / (2 * f)) / 2 = Real.arctan (s / (2 * f)) := by ring
    rw [h2, Real.tan_arctan]
    exact ne_of_gt (div_pos hs (mul_pos two_pos hf))
  · intro ho
    rw [fov_distance_closed_form]
    exact div_pos (mul_pos ho hf) hs
  · rw [fov_distance_closed_form]
    simp

/-- C4 witness: with the default optics (aperture 24, focal length 50), a
10mm object needs a positive distance and a 0mm object needs distance 0. -/
theorem fov_distance_guarantees_witness :
    0 < calculate_field_of_view_distance 24 10 50
    ∧ calculate_field_of_view_distance 24 0 50 = 0 :=
  ⟨(fov_distance_guarantees 24 10 50 (by norm_num) (by norm_num)).2.1 (by norm_num),
   (fov_distance_guarantees 24 10 50 (by norm_num) (by norm_num)).2.2⟩

/-- C5 counterexample: the required distance is NOT monotonically decreasing
in the focal length: doubling the focal length from 50 to 100 (aperture 24,
object size 10) strictly increases the distance. -/
theorem fov_distance_not_antitone_in_focal_length :
    ¬ (calculate_field_of_view_distance 24 10 100 ≤ calculate_field_of_view_distance 24 10 50) := by
  rw [fov_distance_closed_form, fov_distance_closed_form]
  norm_num

/-- C5 (amended): for positive arguments the required distance is strictly
increasing in the object size and strictly increasing (not decreasing) in the
focal length. -/
theorem fov_distance_strict_mono (s o f o2 f2 : ℝ) (hs : 0 < s) (hf : 0 < f) (ho : 0 < o) :
    (o < o2 → calculate_field_of_view_distance s o f < calculate_field_of_view_distance s o2 f)
    ∧ (f < f2 → calculate_field_of_view_distance s o f < calculate_field_of_view_distance s o f2) := by
  constructor
  · intro h
    rw [fov_distance_closed_form, fov_distance_closed_form, div_lt_div_iff_of_pos_right hs]
    exact mul_lt_mul_of_pos_right h hf
  · intro h
    rw [fov_distance_closed_form, fov_distance_closed_form, div_lt_div_iff_of_pos_right hs]
    exact mul_lt_mul_of_pos_left h ho

/-- C5 amended witness: growing the object from 10 to 20, or the focal length
from 50 to 100, strictly grows the required distance. -/
theorem fov_distance_strict_mono_witness :
    calculate_field_of_view_distance 24 10 50 < calculate_field_of_view_distance 24 20 50
    ∧ calculate_field_of_view_distance 24 10 50 < calculate_field_of_view_distance 24 10 100 :=
  ⟨(fov_distance_strict_mono 24 10 50 20 100 (by norm_num) (by norm_num) (by norm_num)).1
      (by norm_num),
   (fov_distance_strict_mono 24 10 50 20 100 (by norm_num) (by norm_num) (by norm_num)).2
      (by norm_num)⟩

/-- C6: the up-axis normalizer runs exactly when the declared up axis is `Z`;
when it runs it wraps every original root child by reference under the new
`/Root` transform carrying a fixed 270-degree rotate-X op, and a scene not
declared Z-up (in particular a Y-up scene) is passed through untouched. -/
theorem up_axis_normalizer_behavior (stage : SubjectStage) (f : String) :
    ((normalize_up_axis stage f).1.isSome ↔ stage.upAxis = "Z")
    ∧ (stage.upAxis ≠ "Z" → normalize_up_axis stage f = (none, f))
    ∧ (stage.upAxis = "Z" →
        normalize_up_axis stage f = (some (generate_y_up_stage stage f), "y_up.usda")
        ∧ (generate_y_up_stage stage f).rotateXDegrees = 270
        ∧ ∀ rp ∈ (generate_y_up_stage stage f).children,
            rp.referenceFile = f ∧ rp.active = true) := by
  refine ⟨?_, ?_, ?_⟩
  · unfold normalize_up_axis
    by_cases h : stage.upAxis = "Z" <;> simp [h]
  · intro h
    unfold normalize_up_axis
    simp [h]
  · intro h
    refine ⟨by unfold normalize_up_axis; simp [h], rfl, ?_⟩
    intro rp hrp
    unfold generate_y_up_stage at hrp
    simp only [List.mem_map] at hrp
    obtain ⟨p, _, hp⟩ := hrp
    rw [← hp]
    exact ⟨rfl, rfl⟩

/-- C6 witness: a Y-up one-prim scene passes through untouched, and the
wrapper for the same scene declared Z-up carries the 270-degree rotate-X. -/
theorem up_axis_normalizer_behavior_witness :
    normalize_up_axis ⟨"Y", [⟨"cube", "Xform"⟩], []⟩ "cube.usd" = (none, "cube.usd")
    ∧ (generate_y_up_stage ⟨"Z", [⟨"cube", "Xform"⟩], []⟩ "cube.usd").rotateXDegrees = 270 :=
  ⟨(up_axis_normalizer_behavior ⟨"Y", [⟨"cube", "Xform"⟩], []⟩ "cube.usd").2.1 (by decide),
   ((up_axis_normalizer_behavior ⟨"Z", [⟨"cube", "Xform"⟩], []⟩ "cube.usd").2.2 rfl).2.1⟩

/-- C7 counterexample: when the external render fails (non-zero exit, so
`subprocess.run(check=True)` raises), `take_snapshot` propagates the error
and the remove calls are never reached: both `camera.usda` and `y_up.usda`
are still on disk afterwards, contradicting the claim that cleanup is still
attempted on the render-failure path. -/
theorem render_failure_skips_cleanup :
    (take_snapshot OSKind.linux 1 ["camera.usda", "y_up.usda"]
        "renders/cube.png").1.contains "camera.usda" = true
    ∧ (take_snapshot OSKind.linux 1 ["camera.usda", "y_up.usda"]
        "renders/cube.png").1.contains "y_up.usda" = true
    ∧ okB (take_snapshot OSKind.linux 1 ["camera.usda", "y_up.usda"]
        "renders/cube.png").2 = false :=
  ⟨rfl, rfl, rfl⟩

/-- C7 (amended): cleanup runs only on the success path: when the render
succeeds, `camera.usda` and (when present) `y_up.usda` are removed before
`take_snapshot` returns. -/
theorem snapshot_cleanup_on_success (os : OSKind) (fs : List String) (img : String)
    (h : "camera.usda" ∈ fs) :
    ("camera.usda" ∉ (take_snapshot os 0 fs img).1)
    ∧ ("y_up.usda" ∉ (take_snapshot os 0 fs img).1)
    ∧ (take_snapshot os 0 fs img).2 = Except.ok img := by
  have hrun : run_os_specific_usdrecord os 0 = Except.ok () := by
    cases os <;> rfl
  unfold take_snapshot
  rw [hrun]
  simp only [os_remove, if_pos h]
  by_cases hy : "y_up.usda" ∈ fs.filter fun g => g ≠ "camera.usda"
  · simp only [if_pos hy]
    refine ⟨?_, ?_, trivial⟩
    · simp [List.mem_filter]
    · simp [List.mem_filter]
  · simp only [if_neg hy]
    refine ⟨?_, hy, trivial⟩
    simp [List.mem_filter]

/-- C7 amended witness: with both temporaries on disk and a successful
render, both are removed and the image name is returned. -/
theorem snapshot_cleanup_on_success_witness :
    ("camera.usda" ∉ (take_snapshot OSKind.linux 0 ["camera.usda", "y_up.usda"]
        "renders/cube.png").1)
    ∧ ("y_up.usda" ∉ (take_snapshot OSKind.linux 0 ["camera.usda", "y_up.usda"]
        "renders/cube.png").1)
    ∧ (take_snapshot OSKind.linux 0 ["camera.usda", "y_up.usda"]
        "renders/cube.png").2 = Except.ok "renders/cube.png" :=
  snapshot_cleanup_on_success OSKind.linux ["camera.usda", "y_up.usda"]
    "renders/cube.png" (by decide)

/-- C8: the render step does propagate failures (all three OS branches pass
`check=True`, so a non-zero `usdrecord` exit raises `CalledProcessError`),
but archive packing does not satisfy the claim: `zip_results` invokes the
packer through `subprocess.run` without `check=True`, so a non-zero `usdzip`
exit raises nothing, and `zip_results` itself raises `ValueError` from
`Path.with_suffix` before the packer even runs. -/
theorem exit_code_mechanisms :
    run_os_specific_usdrecord OSKind.linux 1 = Except.error "CalledProcessError"
    ∧ run_os_specific_usdrecord OSKind.windows 1 = Except.error "CalledProcessError"
    ∧ run_os_specific_usdrecord OSKind.darwin 1 = Except.error "CalledProcessError"
    ∧ subprocess_run false 1 = Except.ok ()
    ∧ okB (zip_results "cube.usd" "renders/cube.png" false 0) = false :=
  ⟨rfl, rfl, rfl, rfl, rfl⟩

/-- C9: `zip_results` never produces the claimed archive: it computes the
archive name with `Path.with_suffix("_Thumbnail.usdz")`, which raises
`ValueError` because the suffix does not start with a dot.  Had the suffix
been accepted, the stem-plus-suffix replacement would indeed have produced
the documented name `cube_Thumbnail.usdz` for the subject `cube.usd`. -/
theorem zip_results_invalid_suffix :
    zip_results "cube.usd" "renders/cube.png" false 0
      = Except.error "ValueError: Invalid suffix"
    ∧ (py_suffix_split "cube.usd").1 ++ "_Thumbnail.usdz" = "cube_Thumbnail.usdz" := by
  constructor
  · rfl
  · decide

/-- C10: the composed two-step computation (`fov` from `atan`, then distance
from `tan`) coincides, for positive sensor size and focal length, with the
closed form `objectSize * focalLength / sensorSize` as a function of the
object size, because `tan` of half of `2 * atan x` is `x`. -/
theorem fov_two_step_equals_closed_form (s f : ℝ) (hs : 0 < s) (hf : 0 < f) :
    ∀ o : ℝ, calculate_field_of_view_distance s o f = closed_form_distance o f s := by
  intro o
  rw [fov_distance_closed_form]
  rfl

/-- C10 witness: at sensor size 24, focal length 50, object size 10 the two
computations agree. -/
theorem fov_two_step_equals_closed_form_witness :
    calculate_field_of_view_distance 24 10 50 = closed_form_distance 10 50 24 :=
  fov_two_step_equals_closed_form 24 50 (by norm_num) (by norm_num) 10
